import Mathlib

/-!
# HomeObject PG manager: verification of the PG-manager subsystem

Shallow embedding of the HomeObject homestore backend PG-manager code
(`hs_pg_manager.cpp`, `hs_homeobject.hpp`) and proofs of the spec claims
about it.  Machine integers are modelled as `Nat` (with explicit `% 2^w`
where overflow matters); byte buffers are `List Nat` with every entry
`< 256`; fallible operations return `Option`.
-/

set_option maxRecDepth 4000

namespace HomeObject

/-! ## Little-endian byte encodings

Helpers for the packed on-disk layouts (`#pragma pack(1)`, little-endian). -/

/-- Little-endian encoding of `n` into `w` bytes (`n % 2^(8*w)` is what is stored). -/
def leBytes (w : Nat) (n : Nat) : List Nat :=
  match w with
  | 0 => []
  | Nat.succ w' => (n % 256) :: leBytes w' (n / 256)

theorem leBytes_length (w n : Nat) : (leBytes w n).length = w := by
  induction w generalizing n with
  | zero => rfl
  | succ w' ih => simp [leBytes, ih]

/-- 16-bit little-endian encoding (`uint16_t`, `chunk_num_t`, `pg_id_t`). -/
def u16le (n : Nat) : List Nat := leBytes 2 n

/-- 32-bit little-endian encoding (`uint32_t`, `int32_t` two's complement). -/
def u32le (n : Nat) : List Nat := leBytes 4 n

/-- 64-bit little-endian encoding (`uint64_t`). -/
def u64le (n : Nat) : List Nat := leBytes 8 n

/-- 128-bit encoding of a UUID (`boost::uuids::uuid`, 16 raw bytes). -/
def uuidBytes (n : Nat) : List Nat := leBytes 16 n

/-- `int32_t` two's complement encoding of a signed priority value. -/
def i32le (z : Int) : List Nat := u32le (z % (2 ^ 32)).toNat

theorem u16le_length (n : Nat) : (u16le n).length = 2 := leBytes_length 2 n
theorem u32le_length (n : Nat) : (u32le n).length = 4 := leBytes_length 4 n
theorem u64le_length (n : Nat) : (u64le n).length = 8 := leBytes_length 8 n
theorem uuidBytes_length (n : Nat) : (uuidBytes n).length = 16 := leBytes_length 16 n
theorem i32le_length (z : Int) : (i32le z).length = 4 := u32le_length _

/-! ## CRC32 (IEEE, reflected)

Modelled from the spec: `crc32_ieee` comes from the external `sisl` library
(not in `src/`); the spec fixes it as "CRC32-IEEE with seed `init_crc32`".
We model the standard reflected CRC-32 update (polynomial `0xEDB88320`)
over byte lists; the claims never depend on the particular polynomial,
only on the checksum being a concrete function of the payload bytes. -/

/-- One bit step of the reflected CRC-32 update. -/
def crcBitStep (c : Nat) : Nat :=
  if c % 2 = 1 then (c >>> 1) ^^^ 0xEDB88320 else c >>> 1

/-- One byte step of the reflected CRC-32 update. -/
def crcByteStep (c b : Nat) : Nat :=
  let c := (c ^^^ (b % 256)) % 2 ^ 32
  crcBitStep (crcBitStep (crcBitStep (crcBitStep
    (crcBitStep (crcBitStep (crcBitStep (crcBitStep c)))))))

/-- `crc32_ieee(seed, bytes, len)`: fold the byte step over the buffer. -/
def crc32_ieee (seed : Nat) (bytes : List Nat) : Nat :=
  bytes.foldl crcByteStep seed

/-- Modelled from the spec: the seed constant `init_crc32` of the external
`sisl` library; the claims depend only on it being a fixed constant. -/
def init_crc32 : Nat := 0

/-! ## PG error domain and the replication-service error mapping (C5)

`PGError` is the PG error domain of §7 of the spec; `ReplServiceError` is
the external homestore error enum, with exactly the enumerators consumed
by `toPgError` in `hs_pg_manager.cpp` (the function's trailing
`return PGError::UNKNOWN` covers any other value, which the C++ enum does
not have). -/

inductive PGError where
  | INVALID_ARG
  | UNKNOWN_PG
  | UNKNOWN_PEER
  | NOT_LEADER
  | TIMEOUT
  | NO_SPACE_LEFT
  | DRIVE_WRITE_ERROR
  | RETRY_REQUEST
  | CRC_MISMATCH
  | UNKNOWN
  deriving DecidableEq, Repr

inductive ReplServiceError where
  | OK
  | CANCELLED
  | TIMEOUT
  | NOT_LEADER
  | BAD_REQUEST
  | SERVER_ALREADY_EXISTS
  | CONFIG_CHANGING
  | SERVER_IS_JOINING
  | SERVER_NOT_FOUND
  | CANNOT_REMOVE_LEADER
  | SERVER_IS_LEAVING
  | TERM_MISMATCH
  | RESULT_NOT_EXIST_YET
  | NOT_IMPLEMENTED
  | NO_SPACE_LEFT
  | DRIVE_WRITE_ERROR
  | RETRY_REQUEST
  | FAILED
  deriving DecidableEq, Repr

/-- `toPgError` (hs_pg_manager.cpp:9-53): the switch over the
replication-service error, fall-throughs written out. -/
def toPgError (e : ReplServiceError) : PGError :=
  match e with
  | .BAD_REQUEST => PGError.INVALID_ARG
  | .CANCELLED => PGError.INVALID_ARG
  | .CONFIG_CHANGING => PGError.INVALID_ARG
  | .SERVER_ALREADY_EXISTS => PGError.INVALID_ARG
  | .SERVER_IS_JOINING => PGError.INVALID_ARG
  | .SERVER_IS_LEAVING => PGError.INVALID_ARG
  | .RESULT_NOT_EXIST_YET => PGError.INVALID_ARG
  | .TERM_MISMATCH => PGError.INVALID_ARG
  | .NOT_IMPLEMENTED => PGError.INVALID_ARG
  | .NOT_LEADER => PGError.NOT_LEADER
  | .CANNOT_REMOVE_LEADER => PGError.UNKNOWN_PEER
  | .TIMEOUT => PGError.TIMEOUT
  | .SERVER_NOT_FOUND => PGError.UNKNOWN_PG
  | .NO_SPACE_LEFT => PGError.NO_SPACE_LEFT
  | .DRIVE_WRITE_ERROR => PGError.DRIVE_WRITE_ERROR
  | .RETRY_REQUEST => PGError.RETRY_REQUEST
  | .OK => PGError.UNKNOWN
  | .FAILED => PGError.UNKNOWN

/-! ## DataHeader (C6)

`HSHomeObject::DataHeader` (hs_homeobject.hpp:134-147), inside the
`#pragma pack(1)` region: `uint64_t magic; uint8_t version;
data_type_t type : uint32_t`. -/

/-- `DataHeader::data_header_magic`. -/
def data_header_magic : Nat := 0x21fdffdba8d68fc6

/-- `DataHeader::data_header_version`. -/
def data_header_version : Nat := 0x01

/-- `DataHeader::data_type_t : uint32_t { SHARD_INFO = 1, BLOB_INFO = 2 }`. -/
inductive data_type_t where
  | SHARD_INFO
  | BLOB_INFO
  deriving DecidableEq, Repr

/-- The `uint32_t` value of each enumerator. -/
def data_type_t.toNat : data_type_t → Nat
  | .SHARD_INFO => 1
  | .BLOB_INFO => 2

structure DataHeader where
  magic : Nat := data_header_magic
  version : Nat := data_header_version
  type : data_type_t := data_type_t.BLOB_INFO
  deriving DecidableEq, Repr

/-- `DataHeader::valid()`: magic matches and version ≤ current. -/
def DataHeader.valid (h : DataHeader) : Bool :=
  h.magic == data_header_magic && h.version ≤ data_header_version

/-- Packed (`#pragma pack(1)`) on-disk bytes of a `DataHeader`:
`u64 magic | u8 version | u32 type`. -/
def DataHeader.encode (h : DataHeader) : List Nat :=
  u64le h.magic ++ [h.version % 256] ++ u32le h.type.toNat

/-- `sizeof(DataHeader)` under `#pragma pack(1)`. -/
def sizeof_DataHeader : Nat := 8 + 1 + 4

theorem DataHeader.encode_is_13_bytes (h : DataHeader) :
    h.encode.length = sizeof_DataHeader := by
  simp [DataHeader.encode, u64le_length, u32le_length, sizeof_DataHeader]

/-! ## pg_members and pg_info_superblk (C7, C9)

`HSHomeObject::pg_members` and `HSHomeObject::pg_info_superblk`
(hs_homeobject.hpp:71-132), inside `#pragma pack(1)`.  The flexible
trailer `char data[1]` holds `pg_members[num_members]` followed by
`chunk_num_t[num_chunks]`; we model the trailer contents as two lists
and recover the flat byte image with `encode`. -/

/-- `pg_members::max_name_len`. -/
def max_name_len : Nat := 32

/-- `pg_members { peer_id_t id; char name[32]; int32_t priority }`;
the name field is modelled as its raw bytes. -/
structure pg_members where
  id : Nat
  name : List Nat
  priority : Int
  deriving DecidableEq, Repr

/-- Packed bytes of one `pg_members` entry: the name field is a fixed
32-byte array, zero-filled past the stored characters. -/
def pg_members.encode (m : pg_members) : List Nat :=
  uuidBytes m.id ++
    (m.name.take max_name_len ++
      List.replicate (max_name_len - (m.name.take max_name_len).length) 0) ++
    i32le m.priority

/-- `sizeof(pg_members)` under `#pragma pack(1)`: 16 + 32 + 4. -/
def sizeof_pg_members : Nat := 16 + 32 + 4

theorem pg_members.encode_is_52_bytes (m : pg_members) :
    m.encode.length = sizeof_pg_members := by
  simp [pg_members.encode, uuidBytes_length, i32le_length, sizeof_pg_members,
    max_name_len]
  omega

/-- `pg_info_superblk`: fixed fields plus the `data[]` trailer, whose
contents are modelled by the `members` and `chunks` lists.  In C the
trailer length is governed only by `num_members` / `num_chunks`; the
well-formedness predicate `wf` below ties the list lengths to the counts. -/
structure pg_info_superblk where
  id : Nat
  num_members : Nat
  num_chunks : Nat
  replica_set_uuid : Nat
  pg_size : Nat
  index_table_uuid : Nat
  blob_sequence_num : Nat
  active_blob_count : Nat
  tombstone_blob_count : Nat
  total_occupied_blk_count : Nat
  members : List pg_members
  chunks : List Nat
  deriving DecidableEq, Repr

/-- The trailer lists hold exactly `num_members` / `num_chunks` entries. -/
def pg_info_superblk.wf (sb : pg_info_superblk) : Prop :=
  sb.members.length = sb.num_members ∧ sb.chunks.length = sb.num_chunks

/-- `sizeof(pg_info_superblk)` under `#pragma pack(1)`:
`u16 id | u32 num_members | u32 num_chunks | 16B replica_set_uuid |
u64 pg_size | 16B index_table_uuid | u64 blob_sequence_num |
u64 active_blob_count | u64 tombstone_blob_count |
u64 total_occupied_blk_count | char data[1]`. -/
def sizeof_pg_info_superblk : Nat := 2 + 4 + 4 + 16 + 8 + 16 + 8 + 8 + 8 + 8 + 1

/-- `sizeof(homestore::chunk_num_t)` (`uint16_t`). -/
def sizeof_chunk_num_t : Nat := 2

/-- `pg_info_superblk::size()`:
`sizeof(pg_info_superblk) - sizeof(char) + num_members * sizeof(pg_members)
 + num_chunks * sizeof(chunk_num_t)`. -/
def pg_info_superblk.size (sb : pg_info_superblk) : Nat :=
  sizeof_pg_info_superblk - 1 + sb.num_members * sizeof_pg_members +
    sb.num_chunks * sizeof_chunk_num_t

/-- The packed fixed-field prefix of the superblock (everything before
`data[]`), 82 bytes. -/
def pg_info_superblk.fixedBytes (sb : pg_info_superblk) : List Nat :=
  u16le sb.id ++ u32le sb.num_members ++ u32le sb.num_chunks ++
    uuidBytes sb.replica_set_uuid ++ u64le sb.pg_size ++
    uuidBytes sb.index_table_uuid ++ u64le sb.blob_sequence_num ++
    u64le sb.active_blob_count ++ u64le sb.tombstone_blob_count ++
    u64le sb.total_occupied_blk_count

/-- Bytes of the members array region of `data[]`. -/
def pg_info_superblk.membersBytes (sb : pg_info_superblk) : List Nat :=
  (sb.members.map pg_members.encode).flatten

/-- Bytes of the chunk array region of `data[]`
(`chunk_num_t[i]` is the p_chunk_id for v_chunk_id `i`). -/
def pg_info_superblk.chunkBytes (sb : pg_info_superblk) : List Nat :=
  (sb.chunks.map u16le).flatten

/-- The whole flat byte image: fixed fields, then the `data[]` trailer. -/
def pg_info_superblk.encode (sb : pg_info_superblk) : List Nat :=
  sb.fixedBytes ++ sb.membersBytes ++ sb.chunkBytes

theorem pg_info_superblk.fixedBytes_length (sb : pg_info_superblk) :
    sb.fixedBytes.length = sizeof_pg_info_superblk - 1 := by
  simp [pg_info_superblk.fixedBytes, u16le_length, u32le_length, u64le_length,
    uuidBytes_length, sizeof_pg_info_superblk]

theorem pg_info_superblk.membersBytes_length (sb : pg_info_superblk) :
    sb.membersBytes.length = sb.members.length * sizeof_pg_members := by
  unfold pg_info_superblk.membersBytes
  induction sb.members with
  | nil => simp
  | cons m ms ih =>
    simp [List.flatten, pg_members.encode_is_52_bytes, ih, Nat.succ_mul, Nat.add_comm]

theorem pg_info_superblk.chunkBytes_length (sb : pg_info_superblk) :
    sb.chunkBytes.length = sb.chunks.length * sizeof_chunk_num_t := by
  unfold pg_info_superblk.chunkBytes
  induction sb.chunks with
  | nil => simp
  | cons c cs ih =>
    simp [List.flatten, u16le_length, ih, Nat.succ_mul, Nat.add_comm,
      sizeof_chunk_num_t]

/-- `pg_info_superblk::operator=` (hs_homeobject.hpp:107-119): copies the
scalar fields listed there and `memcpy`s the two trailer arrays; the three
durable counters are not assigned and keep the destination's values. -/
def pg_info_superblk.assign (dst rhs : pg_info_superblk) : pg_info_superblk :=
  { id := rhs.id
    num_members := rhs.num_members
    num_chunks := rhs.num_chunks
    pg_size := rhs.pg_size
    replica_set_uuid := rhs.replica_set_uuid
    index_table_uuid := rhs.index_table_uuid
    blob_sequence_num := rhs.blob_sequence_num
    active_blob_count := dst.active_blob_count
    tombstone_blob_count := dst.tombstone_blob_count
    total_occupied_blk_count := dst.total_occupied_blk_count
    members := rhs.members
    chunks := rhs.chunks }

/-- `pg_info_superblk::copy(rhs)` is `*this = rhs`. -/
def pg_info_superblk.copy (dst rhs : pg_info_superblk) : pg_info_superblk :=
  dst.assign rhs

/-! ## UUID text form

Modelled from the spec: `boost::uuids::to_string` / `string_generator`
(external boost code).  A UUID is a 128-bit value; its text form is 32
lowercase hex digits in most-significant-first order, grouped
8-4-4-4-12 by dashes; the parser accepts that form back. -/

/-- Little-endian base-16 digits, fixed width. -/
def nibblesLE (w n : Nat) : List Nat :=
  match w with
  | 0 => []
  | Nat.succ w' => (n % 16) :: nibblesLE w' (n / 16)

/-- Value of a little-endian base-16 digit list. -/
def ofNibblesLE : List Nat → Nat
  | [] => 0
  | d :: ds => d + 16 * ofNibblesLE ds

/-- Big-endian base-16 digits, fixed width. -/
def nibblesBE (w n : Nat) : List Nat := (nibblesLE w n).reverse

/-- Value of a big-endian base-16 digit list. -/
def ofNibblesBE (ds : List Nat) : Nat := ds.foldl (fun a d => a * 16 + d) 0

/-- Lowercase hex digit character for a value `< 16`. -/
def hexDigitChar (d : Nat) : Char :=
  if d < 10 then Char.ofNat (48 + d) else Char.ofNat (87 + d)

/-- Hex digit value of a character, accepting both cases. -/
def hexVal (c : Char) : Option Nat :=
  if 48 ≤ c.toNat ∧ c.toNat ≤ 57 then some (c.toNat - 48)
  else if 97 ≤ c.toNat ∧ c.toNat ≤ 102 then some (c.toNat - 87)
  else if 65 ≤ c.toNat ∧ c.toNat ≤ 70 then some (c.toNat - 55)
  else none

/-- Regroup 32 characters as 8-4-4-4-12 with dashes. -/
def dashGroup (ds : List Char) : List Char :=
  ds.take 8 ++ '-' :: ((ds.drop 8).take 4 ++ '-' :: ((ds.drop 12).take 4
    ++ '-' :: ((ds.drop 16).take 4 ++ '-' :: ds.drop 20)))

/-- `boost::uuids::to_string`: 32 hex digits, most significant first,
with dashes after positions 8, 12, 16 and 20. -/
def uuid_to_string (u : Nat) : String :=
  String.mk (dashGroup ((nibblesBE 32 u).map hexDigitChar))

/-- Parse a list of hex digit characters. -/
def parseHexChars : List Char → Option (List Nat)
  | [] => some []
  | c :: cs =>
    match hexVal c, parseHexChars cs with
    | some d, some ds => some (d :: ds)
    | _, _ => none

/-- `boost::uuids::string_generator`: drop the dashes, read the hex
digits most-significant-first. -/
def string_to_uuid (s : String) : Option Nat :=
  (parseHexChars (s.data.filter (fun c => c ≠ '-'))).map ofNibblesBE

theorem ofNibblesLE_nibblesLE (w n : Nat) :
    ofNibblesLE (nibblesLE w n) = n % 16 ^ w := by
  induction w generalizing n with
  | zero => simp [nibblesLE, ofNibblesLE, Nat.mod_one]
  | succ w' ih =>
    rw [nibblesLE, ofNibblesLE, ih, pow_succ, mul_comm (16 ^ w') 16,
      Nat.mod_mul]

theorem ofNibblesBE_reverse (L : List Nat) :
    ofNibblesBE L.reverse = ofNibblesLE L := by
  induction L with
  | nil => rfl
  | cons d ds ih =>
    simp only [List.reverse_cons, ofNibblesBE, List.foldl_append, List.foldl_cons,
      List.foldl_nil, ofNibblesLE]
    rw [show List.foldl (fun a d => a * 16 + d) 0 ds.reverse = ofNibblesBE ds.reverse from rfl,
      ih]
    ring

theorem nibblesLE_lt (w n : Nat) : ∀ d ∈ nibblesLE w n, d < 16 := by
  induction w generalizing n with
  | zero => simp [nibblesLE]
  | succ w' ih =>
    intro d hd
    rw [nibblesLE] at hd
    rcases List.mem_cons.mp hd with h | h
    · exact h ▸ Nat.mod_lt _ (by norm_num)
    · exact ih _ d h

theorem hexVal_hexDigitChar : ∀ d < 16, hexVal (hexDigitChar d) = some d := by
  decide

theorem hexDigitChar_ne_dash : ∀ d < 16, hexDigitChar d ≠ '-' := by
  decide

theorem parseHexChars_map (L : List Nat) (h : ∀ d ∈ L, d < 16) :
    parseHexChars (L.map hexDigitChar) = some L := by
  induction L with
  | nil => rfl
  | cons d ds ih =>
    simp only [List.map_cons, parseHexChars]
    rw [hexVal_hexDigitChar d (h d (List.mem_cons_self d ds)),
      ih (fun x hx => h x (List.mem_cons_of_mem _ hx))]

theorem uuid_to_string_data (u : Nat) :
    (uuid_to_string u).data = dashGroup ((nibblesBE 32 u).map hexDigitChar) := rfl

theorem filter_dash_grouped (ds : List Char) (hmem : ∀ c ∈ ds, ¬ (c = '-')) :
    ((dashGroup ds).filter (fun c => c ≠ '-')) = ds := by
  unfold dashGroup
  have hfsub : ∀ t : List Char, (∀ c ∈ t, c ∈ ds) →
      t.filter (fun c => c ≠ '-') = t := by
    intro t ht
    apply List.filter_eq_self.mpr
    intro c hc
    simpa using hmem c (ht c hc)
  have hstep : ∀ A B : List Char, (∀ c ∈ A, c ∈ ds) →
      ((A ++ '-' :: B).filter (fun c => c ≠ '-')) =
        A ++ B.filter (fun c => c ≠ '-') := by
    intro A B hA
    rw [List.filter_append, hfsub A hA, List.filter_cons]
    simp
  have h16 : (ds.drop 16).take 4 ++ ds.drop 20 = ds.drop 16 := by
    conv_lhs => rw [show (20 : Nat) = 16 + 4 from rfl, ← List.drop_drop]
    exact List.take_append_drop 4 (ds.drop 16)
  have h12 : (ds.drop 12).take 4 ++ ds.drop 16 = ds.drop 12 := by
    conv_lhs => rw [show (16 : Nat) = 12 + 4 from rfl, ← List.drop_drop]
    exact List.take_append_drop 4 (ds.drop 12)
  have h8 : (ds.drop 8).take 4 ++ ds.drop 12 = ds.drop 8 := by
    conv_lhs => rw [show (12 : Nat) = 8 + 4 from rfl, ← List.drop_drop]
    exact List.take_append_drop 4 (ds.drop 8)
  rw [hstep _ _ (fun c hc => List.mem_of_mem_take hc),
    hstep _ _ (fun c hc => List.mem_of_mem_drop (List.mem_of_mem_take hc)),
    hstep _ _ (fun c hc => List.mem_of_mem_drop (List.mem_of_mem_take hc)),
    hstep _ _ (fun c hc => List.mem_of_mem_drop (List.mem_of_mem_take hc)),
    hfsub _ (fun c hc => List.mem_of_mem_drop hc),
    h16, h12, h8, List.take_append_drop]

/-- Round trip of the UUID text form for any 128-bit value. -/
theorem string_to_uuid_uuid_to_string (u : Nat) (hu : u < 2 ^ 128) :
    string_to_uuid (uuid_to_string u) = some u := by
  have hlt : ∀ d ∈ nibblesBE 32 u, d < 16 := by
    intro d hd
    exact nibblesLE_lt 32 u d (List.mem_reverse.mp hd)
  have hmem : ∀ c ∈ (nibblesBE 32 u).map hexDigitChar, ¬ (c = '-') := by
    intro c hc
    rcases List.mem_map.mp hc with ⟨d, hd, rfl⟩
    exact hexDigitChar_ne_dash d (hlt d hd)
  have hval : ofNibblesBE (nibblesBE 32 u) = u := by
    rw [nibblesBE, ofNibblesBE_reverse, ofNibblesLE_nibblesLE,
      show (16 : Nat) ^ 32 = 2 ^ 128 by norm_num]
    exact Nat.mod_eq_of_lt hu
  rw [string_to_uuid, uuid_to_string_data,
    filter_dash_grouped _ hmem, parseHexChars_map _ hlt]
  simp [hval]

/-! ## PGInfo and its JSON serialization (C10)

`PGMember` / `PGInfo` come from the public headers (`common.hpp`,
`pg_manager.hpp`); `members` is a `std::set< PGMember >` ordered by
member id (the code erases by `PGMember(id)`), modelled as a list that
is strictly sorted by `id`.  `serialize_pg_info` / `deserialize_pg_info`
(hs_pg_manager.cpp:262-297) build and read an `nlohmann::json` document;
JSON documents are modelled by the `Json` AST below, and the byte image
a document is dumped to (what the CRC is computed over) by `dumpJson`. -/

structure PGMember where
  id : Nat
  name : String
  priority : Int
  deriving DecidableEq, Repr

structure PGInfo where
  id : Nat
  size : Nat
  chunk_size : Nat
  replica_set_uuid : Nat
  members : List PGMember
  deriving DecidableEq, Repr

/-- `std::set< PGMember >::emplace` with the order keyed on `id`:
insert in id order, keep the existing element on an id collision. -/
def memberInsert (m : PGMember) : List PGMember → List PGMember
  | [] => [m]
  | x :: xs =>
    if m.id < x.id then m :: x :: xs
    else if x.id < m.id then x :: memberInsert m xs
    else x :: xs

/-- A member list is a valid `std::set` image iff it is strictly sorted
by `id`. -/
def membersSorted (ms : List PGMember) : Prop :=
  ms.Pairwise (fun a b => a.id < b.id)

/-- JSON documents (`nlohmann::json`), as far as this code builds them. -/
inductive Json where
  | num (n : Int)
  | str (s : String)
  | arr (elems : List Json)
  | obj (fields : List (String × Json))

/-- Field lookup in a JSON object (`j["key"]`). -/
def Json.lookup (j : Json) (key : String) : Option Json :=
  match j with
  | .obj fields =>
    match fields.find? (fun f => f.1 == key) with
    | some f => some f.2
    | none => none
  | _ => none

/-- One member's JSON object (`member_j` in the serialization loop). -/
def memberJson (member : PGMember) : Json :=
  Json.obj [
    ("member_id", Json.str (uuid_to_string member.id)),
    ("name", Json.str member.name),
    ("priority", Json.num member.priority)]

/-- `HSHomeObject::serialize_pg_info` (hs_pg_manager.cpp:262-279):
the JSON document built field by field. -/
def serialize_pg_info (pginfo : PGInfo) : Json :=
  Json.obj [("pg_info", Json.obj [
    ("pg_id_t", Json.num pginfo.id),
    ("pg_size", Json.num pginfo.size),
    ("chunk_size", Json.num pginfo.chunk_size),
    ("repl_uuid", Json.str (uuid_to_string pginfo.replica_set_uuid)),
    ("members", Json.arr (pginfo.members.map memberJson))])]

/-- Read one member object (`m["member_id"], m["name"], m["priority"]`);
`none` models an `nlohmann` exception. -/
def parseMember (j : Json) : Option PGMember := do
  let Json.str uuid_str ← j.lookup "member_id" | none
  let u ← string_to_uuid uuid_str
  let Json.str name ← j.lookup "name" | none
  let Json.num priority ← j.lookup "priority" | none
  some { id := u, name := name, priority := priority }

/-- `HSHomeObject::deserialize_pg_info` (hs_pg_manager.cpp:281-297):
read the fields back and `emplace` each member into the set;
`none` models an `nlohmann` exception or a uuid parse failure. -/
def deserialize_pg_info (j : Json) : Option PGInfo := do
  let some pg ← some (j.lookup "pg_info") | none
  let Json.num id ← pg.lookup "pg_id_t" | none
  let Json.num size ← pg.lookup "pg_size" | none
  let Json.num chunk_size ← pg.lookup "chunk_size" | none
  let Json.str uuid_str ← pg.lookup "repl_uuid" | none
  let u ← string_to_uuid uuid_str
  let Json.arr members_j ← pg.lookup "members" | none
  let members ← members_j.foldlM (fun acc mj => do
    let m ← parseMember mj
    pure (memberInsert m acc)) []
  some { id := id.toNat, size := size.toNat, chunk_size := chunk_size.toNat,
         replica_set_uuid := u, members := members }

/-- Escaping of one character inside a JSON string literal
(`nlohmann::json::dump`; quote and backslash, the only cases these
payloads can hit). -/
def escapeJsonChar (c : Char) : List Char :=
  if c = Char.ofNat 34 then [Char.ofNat 92, Char.ofNat 34]
  else if c = Char.ofNat 92 then [Char.ofNat 92, Char.ofNat 92]
  else [c]

mutual

/-- `nlohmann::json::dump()`: the text the document is serialized to.
The CREATE_PG payload CRC is computed over these bytes. -/
def dumpJson : Json → List Char
  | .num n => (toString n).data
  | .str s => Char.ofNat 34 :: (s.data.flatMap escapeJsonChar) ++ [Char.ofNat 34]
  | .arr es => Char.ofNat 91 :: dumpJsonList es ++ [Char.ofNat 93]
  | .obj fs => Char.ofNat 123 :: dumpJsonFields fs ++ [Char.ofNat 125]

/-- Comma-separated array elements. -/
def dumpJsonList : List Json → List Char
  | [] => []
  | [j] => dumpJson j
  | j :: js => dumpJson j ++ ',' :: dumpJsonList js

/-- Comma-separated `"key":value` fields. -/
def dumpJsonFields : List (String × Json) → List Char
  | [] => []
  | [(k, v)] =>
    Char.ofNat 34 :: (k.data.flatMap escapeJsonChar) ++ Char.ofNat 34 :: ':' :: dumpJson v
  | (k, v) :: fs =>
    Char.ofNat 34 :: (k.data.flatMap escapeJsonChar) ++ Char.ofNat 34 :: ':' :: dumpJson v
      ++ ',' :: dumpJsonFields fs

end

/-- Payload bytes of a dumped JSON document (the `std::string` the
proposer memcpys behind the message header). -/
def jsonBytes (j : Json) : List Nat :=
  (dumpJson j).map Char.toNat

/-! ### Round trip of `serialize_pg_info` / `deserialize_pg_info` -/

theorem parseMember_memberJson (m : PGMember) (h : m.id < 2 ^ 128) :
    parseMember (memberJson m) = some m := by
  have h1 : parseMember (memberJson m) =
      (string_to_uuid (uuid_to_string m.id)).bind (fun u =>
        some { id := u, name := m.name, priority := m.priority }) := rfl
  rw [h1, string_to_uuid_uuid_to_string m.id h]
  rfl

theorem memberInsert_append (m : PGMember) (acc : List PGMember)
    (h : ∀ a ∈ acc, a.id < m.id) : memberInsert m acc = acc ++ [m] := by
  induction acc with
  | nil => rfl
  | cons a as ih =>
    have ha : a.id < m.id := h a (List.mem_cons_self a as)
    rw [memberInsert, if_neg (by omega), if_pos ha,
      ih (fun x hx => h x (List.mem_cons_of_mem a hx)), List.cons_append]

theorem foldl_memberInsert_sorted (ms : List PGMember) :
    ∀ acc : List PGMember, membersSorted ms →
      (∀ a ∈ acc, ∀ m ∈ ms, a.id < m.id) →
      ms.foldl (fun acc m => memberInsert m acc) acc = acc ++ ms := by
  induction ms with
  | nil =>
    intro acc _ _
    simp
  | cons m ms ih =>
    intro acc hs hcross
    rcases List.pairwise_cons.mp hs with ⟨hm, hs'⟩
    rw [List.foldl_cons,
      memberInsert_append m acc (fun a ha => hcross a ha m (List.mem_cons_self m ms)),
      ih (acc ++ [m]) hs' ?cross]
    · simp
    case cross =>
      intro a ha x hx
      rcases List.mem_append.mp ha with ha' | ha'
      · exact hcross a ha' x (List.mem_cons_of_mem m hx)
      · rw [List.mem_singleton.mp ha']
        exact hm x hx

theorem foldlM_parse_members (ms : List PGMember)
    (hb : ∀ m ∈ ms, m.id < 2 ^ 128) :
    ∀ acc : List PGMember,
      (ms.map memberJson).foldlM (fun acc mj => do
          let m ← parseMember mj
          pure (memberInsert m acc)) acc =
        some (ms.foldl (fun acc m => memberInsert m acc) acc) := by
  induction ms with
  | nil =>
    intro acc
    rfl
  | cons m ms ih =>
    intro acc
    rw [List.map_cons, List.foldlM_cons]
    rw [show (do
        let x ← parseMember (memberJson m)
        pure (memberInsert x acc) : Option (List PGMember)) =
      (parseMember (memberJson m)).bind (fun x => some (memberInsert x acc)) from rfl]
    rw [parseMember_memberJson m (hb m (List.mem_cons_self m ms)), Option.some_bind]
    exact ih (fun x hx => hb x (List.mem_cons_of_mem m hx)) _

/-- `deserialize_pg_info ∘ serialize_pg_info` restores every field of a
well-formed `PGInfo` (member set strictly sorted by id, 128-bit uuids). -/
theorem deserialize_serialize_pg_info (info : PGInfo)
    (hsorted : membersSorted info.members)
    (hu : info.replica_set_uuid < 2 ^ 128)
    (hmu : ∀ m ∈ info.members, m.id < 2 ^ 128) :
    deserialize_pg_info (serialize_pg_info info) = some info := by
  have h1 : deserialize_pg_info (serialize_pg_info info) =
      (string_to_uuid (uuid_to_string info.replica_set_uuid)).bind (fun u =>
        ((info.members.map memberJson).foldlM (fun acc mj => do
            let m ← parseMember mj
            pure (memberInsert m acc)) ([] : List PGMember)).bind (fun members =>
          some { id := (Int.ofNat info.id).toNat,
                 size := (Int.ofNat info.size).toNat,
                 chunk_size := (Int.ofNat info.chunk_size).toNat,
                 replica_set_uuid := u, members := members })) := rfl
  rw [h1, string_to_uuid_uuid_to_string _ hu, Option.some_bind,
    foldlM_parse_members _ hmu [], Option.some_bind,
    foldl_memberInsert_sorted _ [] hsorted (by simp)]
  simp

/-! ## Chunk selector (modelled), HomeObject state

Modelled from the spec: `HeapChunkSelector` (heap_chunk_selector.h/cpp is
not in `src/`).  The spec fixes: a uniform `chunk_size`;
`most_avail_num_chunks()` = maximum free chunks on any single device;
`select_chunks_for_pg(pg_id, size)` atomically reserves
`⌊size/chunk_size⌋` chunks for the PG and fails if insufficient;
`recover_pg_chunks(pg_id, chunks)` restores a PG's chunk list at replay
(it returns a success flag, which can only be false if the PG's chunks
were already set). -/

/-- Association-list lookup (`std::map::find` keyed by a `Nat`). -/
def alookup {α : Type} : List (Nat × α) → Nat → Option α
  | [], _ => none
  | (k, v) :: xs, key => if k = key then some v else alookup xs key

structure ChunkSelector where
  chunk_size : Nat
  dev_free : List (List Nat)
  pg_chunks : List (Nat × List Nat)
  deriving DecidableEq, Repr

def ChunkSelector.get_chunk_size (cs : ChunkSelector) : Nat := cs.chunk_size

/-- Maximum number of free chunks on any single device. -/
def ChunkSelector.most_avail_num_chunks (cs : ChunkSelector) : Nat :=
  (cs.dev_free.map List.length).foldl max 0

/-- Reserve `⌊size/chunk_size⌋` chunks for `pg` from one device that has
enough; `none` if no device can serve the request. -/
def ChunkSelector.select_chunks_for_pg (cs : ChunkSelector) (pg : Nat)
    (size : Nat) : Option (Nat × ChunkSelector) :=
  let needed := size / cs.chunk_size
  match cs.dev_free.findIdx? (fun free => needed ≤ free.length) with
  | none => none
  | some i =>
    let free := cs.dev_free.getD i []
    some (needed,
      { cs with
        dev_free := cs.dev_free.set i (free.drop needed)
        pg_chunks := (pg, free.take needed) :: cs.pg_chunks })

/-- `get_pg_chunks(pg)`: the ordered p_chunk_id list of a PG
(`nullptr` = `none` when the PG has no reservation). -/
def ChunkSelector.get_pg_chunks (cs : ChunkSelector) (pg : Nat) :
    Option (List Nat) :=
  alookup cs.pg_chunks pg

/-- `recover_pg_chunks(pg, chunks)`: restore a PG's chunk list at replay;
fails if the PG's chunks were already set. -/
def ChunkSelector.recover_pg_chunks (cs : ChunkSelector) (pg : Nat)
    (chunks : List Nat) : Option ChunkSelector :=
  match alookup cs.pg_chunks pg with
  | some _ => none
  | none => some { cs with pg_chunks := (pg, chunks) :: cs.pg_chunks }

/-- `PgIndexTable { pg_id; index_table }`: the index table itself is
represented by its uuid. -/
structure PgIndexTable where
  pg_id : Nat
  table_uuid : Nat
  deriving DecidableEq, Repr

/-- In-memory `HS_PG`: its `PGInfo`, the attached index table (by uuid),
the durable counters, and the persisted superblock image. -/
structure HS_PG where
  pg_info : PGInfo
  index_table_uuid : Nat
  blob_sequence_num : Nat
  active_blob_count : Nat
  tombstone_blob_count : Nat
  total_occupied_blk_count : Nat
  pg_sb : pg_info_superblk
  deriving DecidableEq, Repr

/-- Name bytes of a member as stored in the superblock:
`strncpy(dst, src, min(len, 32))` into a zeroed 32-byte field. -/
def nameBytes (s : String) : List Nat :=
  (s.data.map Char.toNat).take max_name_len

/-- The member name read back from the superblock:
`std::string(sb_members[i].name)` reads up to the first NUL. -/
def nameOfBytes (bs : List Nat) : String :=
  String.mk ((bs.takeWhile (fun b => b ≠ 0)).map Char.ofNat)

/-- The `HS_PG(PGInfo, rdev, index_table, pg_chunk_ids)` constructor's
superblock image (hs_pg_manager.cpp:339-372): counters start at zero,
`replica_set_uuid` is taken from the repl dev's group id. -/
def make_pg_superblk (info : PGInfo) (group_id index_uuid : Nat)
    (chunks : List Nat) : pg_info_superblk :=
  { id := info.id
    num_members := info.members.length
    num_chunks := chunks.length
    replica_set_uuid := group_id
    pg_size := info.size
    index_table_uuid := index_uuid
    blob_sequence_num := 0
    active_blob_count := 0
    tombstone_blob_count := 0
    total_occupied_blk_count := 0
    members := info.members.map (fun m =>
      { id := m.id, name := nameBytes m.name, priority := m.priority })
    chunks := chunks }

/-- `HS_PG::pg_info_from_sb` (hs_pg_manager.cpp:328-337): only `id`,
`members`, `size` and `replica_set_uuid` are restored (`chunk_size`
stays default-constructed). -/
def pg_info_from_sb (sb : pg_info_superblk) : PGInfo :=
  { id := sb.id
    size := sb.pg_size
    chunk_size := 0
    replica_set_uuid := sb.replica_set_uuid
    members := sb.members.map (fun m =>
      { id := m.id, name := nameOfBytes m.name, priority := m.priority }) }

/-- The recovery constructor `HS_PG(superblk&&, rdev)`
(hs_pg_manager.cpp:374-381): durable counters restored from the
superblock; the index table is attached afterwards by the caller. -/
def HS_PG.fromSuperblk (sb : pg_info_superblk) (table_uuid : Nat) : HS_PG :=
  { pg_info := pg_info_from_sb sb
    index_table_uuid := table_uuid
    blob_sequence_num := sb.blob_sequence_num
    active_blob_count := sb.active_blob_count
    tombstone_blob_count := sb.tombstone_blob_count
    total_occupied_blk_count := sb.total_occupied_blk_count
    pg_sb := sb }

/-- The PG-manager state carried by `HSHomeObject`: the PG map, the chunk
selector and the uuid → `PgIndexTable` map. -/
structure HOState where
  pg_map : List (Nat × HS_PG)
  chunk_selector : ChunkSelector
  index_table_pg_map : List (Nat × PgIndexTable)
  deriving DecidableEq, Repr

/-- `std::map::try_emplace`: keep the existing entry on a key collision. -/
def try_emplace (m : List (Nat × HS_PG)) (k : Nat) (v : HS_PG) :
    List (Nat × HS_PG) :=
  if (alookup m k).isSome then m else (k, v) :: m

/-! ## create_pg (C1, C2) -/

/-- `sisl::round_down(a, b)`: largest multiple of `b` that is `≤ a`. -/
def sisl_round_down (a b : Nat) : Nat := a / b * b

/-- What `HSHomeObject::_create_pg` does before any interaction with the
replication service: return success at once, fail, or go on to create the
replication group and propose the CREATE_PG log entry carrying the
finished `PGInfo`. -/
inductive CreatePgResult where
  | success
  | error (e : PGError)
  | propose (info : PGInfo)
  deriving DecidableEq, Repr

/-- `HSHomeObject::_create_pg` (hs_pg_manager.cpp:59-90) up to the point
where the replication group is created; `fresh_uuid` stands for
`boost::uuids::random_generator()()`.  No state is written in this
prefix: its only outputs are an early return or the proposal. -/
def create_pg (st : HOState) (pg_info : PGInfo) (fresh_uuid : Nat) :
    CreatePgResult :=
  if (alookup st.pg_map pg_info.id).isSome then .success
  else if pg_info.size = 0 then .error .INVALID_ARG
  else
    let most_avail_num_chunks := st.chunk_selector.most_avail_num_chunks
    let chunk_size := st.chunk_selector.get_chunk_size
    let needed_num_chunks := sisl_round_down pg_info.size chunk_size / chunk_size
    if most_avail_num_chunks < needed_num_chunks then .error .NO_SPACE_LEFT
    else .propose { pg_info with chunk_size := chunk_size,
                                 replica_set_uuid := fresh_uuid }

/-! ## The CREATE_PG commit handler (C1, C3, C4)

`ReplicationMessageHeader` is modelled from the spec
(`replication_message.hpp` is not in `src/`): the header carries
`msg_type`, `payload_size`, `payload_crc` (CRC32-IEEE seeded with
`init_crc32`) and a seal that hashes the preceding fields;
`corrupted()` re-checks magic and seal. -/

/-- Modelled from the spec: the fixed magic of the replication message
header; the claims depend only on it being a constant. -/
def repl_msg_magic : Nat := 0xfeedbabe

/-- Wire message type tags of §6 of the spec. -/
inductive ReplicationMessageType where
  | CREATE_PG_MSG
  | CREATE_SHARD_MSG
  | SEAL_SHARD_MSG
  | PUT_BLOB_MSG
  | DEL_BLOB_MSG
  deriving DecidableEq, Repr

def ReplicationMessageType.toNat : ReplicationMessageType → Nat
  | .CREATE_PG_MSG => 1
  | .CREATE_SHARD_MSG => 2
  | .SEAL_SHARD_MSG => 3
  | .PUT_BLOB_MSG => 4
  | .DEL_BLOB_MSG => 5

/-- Modelled from the spec: the replication message header
(`replication_message.hpp` is not in `src/`). -/
structure ReplicationMessageHeader where
  magic : Nat
  msg_type : Nat
  payload_size : Nat
  payload_crc : Nat
  header_crc : Nat
  deriving DecidableEq, Repr

/-- The header fields covered by the seal. -/
def ReplicationMessageHeader.preSealBytes (h : ReplicationMessageHeader) :
    List Nat :=
  u64le h.magic ++ [h.msg_type % 256] ++ u64le h.payload_size ++
    u32le h.payload_crc

/-- `header->seal()`: store the hash of the preceding fields. -/
def ReplicationMessageHeader.sealed (h : ReplicationMessageHeader) :
    ReplicationMessageHeader :=
  { h with header_crc := crc32_ieee init_crc32 h.preSealBytes }

/-- `msg_header->corrupted()`: magic or seal check fails. -/
def ReplicationMessageHeader.corrupted (h : ReplicationMessageHeader) : Bool :=
  h.magic != repl_msg_magic ||
    h.header_crc != crc32_ieee init_crc32 h.preSealBytes

/-- The header `HSHomeObject::do_create_pg` (hs_pg_manager.cpp:92-109)
attaches to the serialized `PGInfo` payload before proposing it. -/
def create_pg_message_header (payload : Json) : ReplicationMessageHeader :=
  ReplicationMessageHeader.sealed
    { magic := repl_msg_magic
      msg_type := ReplicationMessageType.CREATE_PG_MSG.toNat
      payload_size := (jsonBytes payload).length
      payload_crc := crc32_ieee init_crc32 (jsonBytes payload)
      header_crc := 0 }

/-- A header built by `do_create_pg` passes its own validation: the
seal stores exactly the hash that `corrupted()` recomputes. -/
theorem create_pg_message_header_not_corrupted (payload : Json) :
    (create_pg_message_header payload).corrupted = false := by
  unfold create_pg_message_header ReplicationMessageHeader.corrupted
    ReplicationMessageHeader.sealed ReplicationMessageHeader.preSealBytes
  simp

/-- The `payload_crc` a `do_create_pg` header carries is the CRC of the
payload bytes it was built from. -/
theorem create_pg_message_header_payload_crc (payload : Json) :
    crc32_ieee init_crc32 (jsonBytes payload) =
      (create_pg_message_header payload).payload_crc := rfl

/-- What the commit handler does to the proposer's promise: nothing on a
non-proposer replica, success, or an error. -/
inductive CommitSignal where
  | no_ctx
  | ok
  | err (e : PGError)
  deriving DecidableEq, Repr

/-- Set the promise only when this replica is the proposer
(`if (ctx) ctx->promise_.setValue(...)`). -/
def signal (isProposer : Bool) (r : Option PGError) : CommitSignal :=
  if isProposer then
    match r with
    | none => CommitSignal.ok
    | some e => CommitSignal.err e
  else CommitSignal.no_ctx

/-- Result of one commit-handler run: a normal return with the signalled
value and the state after, or a crash (`RELEASE_ASSERT` failure or an
exception escaping the handler). -/
inductive CommitResult where
  | done (sig : CommitSignal) (st : HOState)
  | fatal
  deriving DecidableEq, Repr

/-- `HSHomeObject::on_create_pg_message_commit` (hs_pg_manager.cpp:111-182).
`isProposer` is `hs_ctx && hs_ctx->is_proposer()`; `payload` is the
serialized `PGInfo` carried behind the header; `group_id` is
`repl_dev->group_id()`; `fresh_index_uuid` is the uuid of the index table
built by `create_index_table()`. -/
def on_create_pg_message_commit (st : HOState) (isProposer : Bool)
    (header : ReplicationMessageHeader) (payload : Json)
    (group_id fresh_index_uuid : Nat) : CommitResult :=
  if header.corrupted then
    .done (signal isProposer (some .CRC_MISMATCH)) st
  else if crc32_ieee init_crc32 (jsonBytes payload) != header.payload_crc then
    .done (signal isProposer (some .CRC_MISMATCH)) st
  else
    match deserialize_pg_info payload with
    | none => .fatal
    | some pg_info =>
      if (alookup st.pg_map pg_info.id).isSome then
        .done (signal isProposer none) st
      else if pg_info.chunk_size != st.chunk_selector.get_chunk_size then
        .done (signal isProposer (some .UNKNOWN)) st
      else
        match st.chunk_selector.select_chunks_for_pg pg_info.id pg_info.size with
        | none => .done (signal isProposer (some .NO_SPACE_LEFT)) st
        | some (_, cs') =>
          let st' := { st with chunk_selector := cs' }
          match cs'.get_pg_chunks pg_info.id with
          | none => .done (signal isProposer (some .NO_SPACE_LEFT)) st'
          | some chunk_ids =>
            if (alookup st'.index_table_pg_map fresh_index_uuid).isSome then
              .fatal
            else if pg_info.replica_set_uuid != group_id then
              .fatal
            else
              let hs_pg : HS_PG :=
                { pg_info := pg_info
                  index_table_uuid := fresh_index_uuid
                  blob_sequence_num := 0
                  active_blob_count := 0
                  tombstone_blob_count := 0
                  total_occupied_blk_count := 0
                  pg_sb := make_pg_superblk pg_info group_id fresh_index_uuid
                    chunk_ids }
              .done (signal isProposer none)
                { st' with
                  index_table_pg_map :=
                    (fresh_index_uuid,
                      { pg_id := pg_info.id, table_uuid := fresh_index_uuid }) ::
                      st'.index_table_pg_map
                  pg_map := try_emplace st'.pg_map pg_info.id hs_pg }

/-! ## PG superblock recovery (C8) -/

/-- Result of `on_pg_meta_blk_found`: a crash on a failed
`RELEASE_ASSERT`, an early return when the repl dev cannot be opened, or
the updated state. -/
inductive RecoveryResult where
  | fatal
  | noReplDev (st : HOState)
  | ok (st : HOState)
  deriving DecidableEq, Repr

/-- Set `it->second.pg_id = pg_id` on the map entry of `uuid`. -/
def setIndexPg : List (Nat × PgIndexTable) → Nat → Nat →
    List (Nat × PgIndexTable)
  | [], _, _ => []
  | (k, v) :: m, uuid, pg =>
    (if k = uuid then (k, { v with pg_id := pg }) else (k, v)) ::
      setIndexPg m uuid pg

/-- `HSHomeObject::on_pg_meta_blk_found` (hs_pg_manager.cpp:299-324):
open the repl dev of the superblock's replica set (early return on
failure); restore the PG's chunks (`RELEASE_ASSERT` on failure); the
index table uuid must already be in the recovered-tables map
(`RELEASE_ASSERT` otherwise); attach the table, record the pg id on the
map entry, and add the PG to the PG map. -/
def on_pg_meta_blk_found (st : HOState) (sb : pg_info_superblk)
    (repl_dev_available : Bool) : RecoveryResult :=
  if !repl_dev_available then .noReplDev st
  else
    match st.chunk_selector.recover_pg_chunks sb.id sb.chunks with
    | none => .fatal
    | some cs' =>
      match alookup st.index_table_pg_map sb.index_table_uuid with
      | none => .fatal
      | some entry =>
        let hs_pg := HS_PG.fromSuperblk sb entry.table_uuid
        .ok { st with
          chunk_selector := cs'
          index_table_pg_map :=
            setIndexPg st.index_table_pg_map sb.index_table_uuid sb.id
          pg_map := try_emplace st.pg_map sb.id hs_pg }

/-! ## Claim theorems -/

/-- C5: the PG error mapping `toPgError` is exactly the fixed table
`NOT_LEADER↦NOT_LEADER`, `TIMEOUT↦TIMEOUT`, `SERVER_NOT_FOUND↦UNKNOWN_PG`,
`NO_SPACE_LEFT↦NO_SPACE_LEFT`, `DRIVE_WRITE_ERROR↦DRIVE_WRITE_ERROR`,
`RETRY_REQUEST↦RETRY_REQUEST`, `CANNOT_REMOVE_LEADER↦UNKNOWN_PEER`, and
every other non-OK replication-service error code maps to `INVALID_ARG`
or `UNKNOWN`. -/
theorem C5_toPgError_fixed_table :
    toPgError .NOT_LEADER = .NOT_LEADER ∧
    toPgError .TIMEOUT = .TIMEOUT ∧
    toPgError .SERVER_NOT_FOUND = .UNKNOWN_PG ∧
    toPgError .NO_SPACE_LEFT = .NO_SPACE_LEFT ∧
    toPgError .DRIVE_WRITE_ERROR = .DRIVE_WRITE_ERROR ∧
    toPgError .RETRY_REQUEST = .RETRY_REQUEST ∧
    toPgError .CANNOT_REMOVE_LEADER = .UNKNOWN_PEER ∧
    (∀ e : ReplServiceError, e ≠ .OK →
      e ∉ [ReplServiceError.NOT_LEADER, .TIMEOUT, .SERVER_NOT_FOUND,
        .NO_SPACE_LEFT, .DRIVE_WRITE_ERROR, .RETRY_REQUEST,
        .CANNOT_REMOVE_LEADER] →
      toPgError e = .INVALID_ARG ∨ toPgError e = .UNKNOWN) := by
  refine ⟨rfl, rfl, rfl, rfl, rfl, rfl, rfl, ?_⟩
  intro e he hn
  cases e <;> simp_all [toPgError]

/-- Witness for C5 at a concrete input: `CANCELLED` is neither `OK` nor in
the fixed table, and maps to `INVALID_ARG` or `UNKNOWN`. -/
theorem C5_toPgError_fixed_table_witness :
    toPgError .CANCELLED = .INVALID_ARG ∨ toPgError .CANCELLED = .UNKNOWN :=
  C5_toPgError_fixed_table.2.2.2.2.2.2.2 .CANCELLED (by decide) (by decide)

/-- C6 counterexample: the claim says `DataHeader` is a 16-byte packed
record, but under `#pragma pack(1)` its byte image
(`u64 magic | u8 version | u32 type`) is 13 bytes, shown here on the
default-constructed header. -/
theorem C6_counterexample :
    ({} : DataHeader).encode.length ≠ 16 := by decide

/-- C6 (amended): the on-disk `DataHeader` is a 13-byte packed record
`{magic = 0x21FDFFDBA8D68FC6, version = 1, type ∈ {SHARD_INFO=1,
BLOB_INFO=2}}`, and `DataHeader::valid()` returns true iff the stored
magic equals that constant and the stored version is ≤ the current
version. -/
theorem C6_data_header :
    (∀ h : DataHeader, h.encode.length = sizeof_DataHeader) ∧
    sizeof_DataHeader = 13 ∧
    data_header_magic = 0x21fdffdba8d68fc6 ∧
    data_header_version = 1 ∧
    data_type_t.SHARD_INFO.toNat = 1 ∧
    data_type_t.BLOB_INFO.toNat = 2 ∧
    (∀ t : data_type_t, t.toNat = 1 ∨ t.toNat = 2) ∧
    ({} : DataHeader).magic = data_header_magic ∧
    ({} : DataHeader).version = data_header_version ∧
    (∀ h : DataHeader, h.valid = true ↔
      (h.magic = data_header_magic ∧ h.version ≤ data_header_version)) := by
  refine ⟨DataHeader.encode_is_13_bytes, rfl, rfl, rfl, rfl, rfl,
    (by intro t; cases t <;> simp [data_type_t.toNat]), rfl, rfl, ?_⟩
  intro h
  simp [DataHeader.valid]

/-- C9: `pg_info_superblk::operator=` (and `copy()`) assigns `id`,
`num_members`, `num_chunks`, `pg_size`, `replica_set_uuid`,
`index_table_uuid`, `blob_sequence_num` and both trailer arrays from the
source, but leaves the destination's `active_blob_count`,
`tombstone_blob_count` and `total_occupied_blk_count` unchanged, for
every pair of superblock values. -/
theorem C9_assign_frame (dst rhs : pg_info_superblk) :
    (dst.assign rhs).id = rhs.id ∧
    (dst.assign rhs).num_members = rhs.num_members ∧
    (dst.assign rhs).num_chunks = rhs.num_chunks ∧
    (dst.assign rhs).pg_size = rhs.pg_size ∧
    (dst.assign rhs).replica_set_uuid = rhs.replica_set_uuid ∧
    (dst.assign rhs).index_table_uuid = rhs.index_table_uuid ∧
    (dst.assign rhs).blob_sequence_num = rhs.blob_sequence_num ∧
    (dst.assign rhs).members = rhs.members ∧
    (dst.assign rhs).chunks = rhs.chunks ∧
    (dst.assign rhs).active_blob_count = dst.active_blob_count ∧
    (dst.assign rhs).tombstone_blob_count = dst.tombstone_blob_count ∧
    (dst.assign rhs).total_occupied_blk_count = dst.total_occupied_blk_count ∧
    dst.copy rhs = dst.assign rhs :=
  ⟨rfl, rfl, rfl, rfl, rfl, rfl, rfl, rfl, rfl, rfl, rfl, rfl, rfl⟩

/-! ### C7 layout lemmas -/

/-- The p_chunk_id recorded for virtual chunk `i` (the comment contract of
`pg_info_superblk::data`): entry `i` of the chunk array. -/
def pg_info_superblk.p_chunk_for_v_chunk (sb : pg_info_superblk) (i : Nat) :
    Option Nat :=
  sb.chunks[i]?

theorem pg_info_superblk.encode_len_eq_size (sb : pg_info_superblk)
    (hwf : sb.wf) : sb.encode.length = sb.size := by
  rcases hwf with ⟨hm, hc⟩
  simp only [pg_info_superblk.encode, pg_info_superblk.size, List.length_append,
    pg_info_superblk.fixedBytes_length, pg_info_superblk.membersBytes_length,
    pg_info_superblk.chunkBytes_length, hm, hc]

theorem pg_info_superblk.encode_drop_fixed (sb : pg_info_superblk) :
    sb.encode.drop (sizeof_pg_info_superblk - 1) =
      sb.membersBytes ++ sb.chunkBytes := by
  rw [pg_info_superblk.encode,
    show sizeof_pg_info_superblk - 1 = sb.fixedBytes.length from
      (pg_info_superblk.fixedBytes_length sb).symm]
  exact List.drop_left _ _

theorem pg_info_superblk.members_region (sb : pg_info_superblk)
    (hwf : sb.wf) :
    (sb.encode.drop (sizeof_pg_info_superblk - 1)).take
        (sb.num_members * sizeof_pg_members) = sb.membersBytes := by
  rw [pg_info_superblk.encode_drop_fixed,
    show sb.num_members * sizeof_pg_members = sb.membersBytes.length from by
      rw [pg_info_superblk.membersBytes_length, hwf.1]]
  exact List.take_left _ _

theorem pg_info_superblk.chunks_region (sb : pg_info_superblk)
    (hwf : sb.wf) :
    (sb.encode.drop (sizeof_pg_info_superblk - 1)).drop
        (sb.num_members * sizeof_pg_members) = sb.chunkBytes := by
  rw [pg_info_superblk.encode_drop_fixed,
    show sb.num_members * sizeof_pg_members = sb.membersBytes.length from by
      rw [pg_info_superblk.membersBytes_length, hwf.1]]
  exact List.drop_left _ _

theorem flatten_u16_entry (ns : List Nat) :
    ∀ i, i < ns.length →
      (((ns.map u16le).flatten.drop (sizeof_chunk_num_t * i)).take
          sizeof_chunk_num_t) = u16le (ns.getD i 0) := by
  induction ns with
  | nil => intro i hi; simp at hi
  | cons n ns ih =>
    intro i hi
    cases i with
    | zero =>
      simp only [List.map_cons, List.flatten_cons, Nat.mul_zero, List.drop_zero,
        List.getD_cons_zero]
      rw [show sizeof_chunk_num_t = (u16le n).length from (u16le_length n).symm]
      exact List.take_left _ _
    | succ j =>
      simp only [List.map_cons, List.flatten_cons, List.getD_cons_succ]
      rw [show sizeof_chunk_num_t * (j + 1) =
          (u16le n).length + sizeof_chunk_num_t * j from by
        rw [u16le_length]; simp [sizeof_chunk_num_t]; ring]
      rw [List.drop_append]
      exact ih j (by simpa using hi)

/-- C7: the `pg_info_superblk` trailer is addressed by counts: in the
flat byte image, the members array sits at offset 0 inside `data`, the
chunk array at offset `num_members * sizeof(pg_members)`, entry `i` of
the chunk array is the p_chunk_id for v_chunk_id `i`, and `size()` equals
`sizeof(pg_info_superblk) - 1 + num_members * sizeof(pg_members)
 + num_chunks * sizeof(chunk_num_t)`. -/
theorem C7_superblk_layout (sb : pg_info_superblk) (hwf : sb.wf) :
    sb.size = sizeof_pg_info_superblk - 1 +
        sb.num_members * sizeof_pg_members +
        sb.num_chunks * sizeof_chunk_num_t ∧
    sb.encode.length = sb.size ∧
    (sb.encode.drop (sizeof_pg_info_superblk - 1)).take
        (sb.num_members * sizeof_pg_members) = sb.membersBytes ∧
    (sb.encode.drop (sizeof_pg_info_superblk - 1)).drop
        (sb.num_members * sizeof_pg_members) = sb.chunkBytes ∧
    (∀ i, i < sb.num_chunks →
      (((sb.encode.drop (sizeof_pg_info_superblk - 1)).drop
          (sb.num_members * sizeof_pg_members)).drop
            (sizeof_chunk_num_t * i)).take sizeof_chunk_num_t =
        u16le (sb.chunks.getD i 0) ∧
      sb.p_chunk_for_v_chunk i = some (sb.chunks.getD i 0)) := by
  refine ⟨rfl, pg_info_superblk.encode_len_eq_size sb hwf,
    pg_info_superblk.members_region sb hwf,
    pg_info_superblk.chunks_region sb hwf, ?_⟩
  intro i hi
  have hi' : i < sb.chunks.length := by rw [hwf.2]; exact hi
  constructor
  · rw [pg_info_superblk.chunks_region sb hwf]
    exact flatten_u16_entry sb.chunks i hi'
  · simp [pg_info_superblk.p_chunk_for_v_chunk, List.getD,
      List.getElem?_eq_getElem hi']

/-- Witness for C7 on a concrete superblock with one member and two
chunks: its byte image has exactly `size()` bytes. -/
theorem C7_superblk_layout_witness :
    ({ id := 1, num_members := 1, num_chunks := 2, replica_set_uuid := 5,
       pg_size := 1024, index_table_uuid := 6, blob_sequence_num := 0,
       active_blob_count := 0, tombstone_blob_count := 0,
       total_occupied_blk_count := 0,
       members := [{ id := 9, name := [97, 98], priority := 1 }],
       chunks := [11, 12] } : pg_info_superblk).encode.length =
      ({ id := 1, num_members := 1, num_chunks := 2, replica_set_uuid := 5,
         pg_size := 1024, index_table_uuid := 6, blob_sequence_num := 0,
         active_blob_count := 0, tombstone_blob_count := 0,
         total_occupied_blk_count := 0,
         members := [{ id := 9, name := [97, 98], priority := 1 }],
         chunks := [11, 12] } : pg_info_superblk).size :=
  (C7_superblk_layout _ ⟨rfl, rfl⟩).2.1

/-- C2 counterexample: the claim says `create_pg` fails with
`NO_SPACE_LEFT` whenever `size > most_avail_num_chunks * chunk_size`; on
a fresh state with `chunk_size = 2` and a single device holding one free
chunk, a request of `size = 3 > 1 * 2` is *not* rejected, because the
code compares `⌊size/chunk_size⌋ = 1 ≤ 1` (the size is rounded down to a
whole number of chunks first). -/
theorem C2_counterexample :
    alookup (⟨[], ⟨2, [[10]], []⟩, []⟩ : HOState).pg_map 1 = none ∧
    (3 : Nat) > (⟨[], ⟨2, [[10]], []⟩, []⟩ : HOState).chunk_selector.most_avail_num_chunks *
      (⟨[], ⟨2, [[10]], []⟩, []⟩ : HOState).chunk_selector.get_chunk_size ∧
    create_pg (⟨[], ⟨2, [[10]], []⟩, []⟩ : HOState)
      ⟨1, 3, 0, 0, []⟩ 7 ≠ CreatePgResult.error PGError.NO_SPACE_LEFT := by
  refine ⟨rfl, by decide, by decide⟩

/-- C2 (amended): for every call to `create_pg` whose `pg_id` is not
already present (and a positive chunk size), `size == 0` fails with
`INVALID_ARG`, and `⌊size/chunk_size⌋ > most_avail_num_chunks` fails with
`NO_SPACE_LEFT`; both failures are returned before a replication group is
created or a log entry proposed (the result is an `error`, not a
`propose`, and `create_pg`'s early returns write no state). -/
theorem C2_create_pg_precheck (st : HOState) (info : PGInfo)
    (fresh_uuid : Nat)
    (hnot : alookup st.pg_map info.id = none)
    (hcs : 0 < st.chunk_selector.get_chunk_size) :
    (info.size = 0 → create_pg st info fresh_uuid = .error .INVALID_ARG) ∧
    (info.size ≠ 0 →
      st.chunk_selector.most_avail_num_chunks <
        info.size / st.chunk_selector.get_chunk_size →
      create_pg st info fresh_uuid = .error .NO_SPACE_LEFT) := by
  have hround : sisl_round_down info.size st.chunk_selector.get_chunk_size /
      st.chunk_selector.get_chunk_size =
      info.size / st.chunk_selector.get_chunk_size := by
    unfold sisl_round_down
    exact Nat.mul_div_cancel _ hcs
  constructor
  · intro h0
    simp [create_pg, hnot, h0]
  · intro hne hlt
    simp [create_pg, hnot, hne, hround, hlt]

/-- Witness for C2 at concrete inputs: an empty-size request on a fresh
state fails with `INVALID_ARG`, and a 2-chunk request against 1 free
chunk fails with `NO_SPACE_LEFT`. -/
theorem C2_create_pg_precheck_witness :
    create_pg (⟨[], ⟨2, [[10]], []⟩, []⟩ : HOState) ⟨1, 0, 0, 0, []⟩ 7 =
      CreatePgResult.error PGError.INVALID_ARG ∧
    create_pg (⟨[], ⟨2, [[10]], []⟩, []⟩ : HOState) ⟨1, 4, 0, 0, []⟩ 7 =
      CreatePgResult.error PGError.NO_SPACE_LEFT :=
  ⟨(C2_create_pg_precheck _ _ _ (by rfl) (by decide)).1 rfl,
   (C2_create_pg_precheck _ _ _ (by rfl) (by decide)).2 (by decide) (by decide)⟩

/-- C3: if the CREATE_PG commit handler sees a header that fails
magic/seal validation, or whose payload CRC32 differs from the header's
`payload_crc`, then `CRC_MISMATCH` is signalled to the proposer only
(`signal` is `err CRC_MISMATCH` exactly on the proposer, nothing on other
replicas), the handler returns normally (`done`, not `fatal`), and the
state — PG map, index-table map, chunk selector — is unchanged. -/
theorem C3_crc_mismatch_commit (st : HOState) (isProposer : Bool)
    (header : ReplicationMessageHeader) (payload : Json)
    (group_id fresh_index_uuid : Nat)
    (hbad : header.corrupted = true ∨
      crc32_ieee init_crc32 (jsonBytes payload) ≠ header.payload_crc) :
    on_create_pg_message_commit st isProposer header payload group_id
        fresh_index_uuid =
      CommitResult.done (signal isProposer (some PGError.CRC_MISMATCH)) st ∧
    signal true (some PGError.CRC_MISMATCH) =
      CommitSignal.err PGError.CRC_MISMATCH ∧
    signal false (some PGError.CRC_MISMATCH) = CommitSignal.no_ctx := by
  refine ⟨?_, rfl, rfl⟩
  rcases hbad with h | h
  · simp [on_create_pg_message_commit, h]
  · unfold on_create_pg_message_commit
    by_cases hc : header.corrupted
    · simp [hc]
    · simp [hc, h]

/-- Witness for C3: a header with a wrong magic on an otherwise empty
state; the proposer's promise is set to `CRC_MISMATCH` and the state is
returned untouched. -/
theorem C3_crc_mismatch_commit_witness :
    on_create_pg_message_commit (⟨[], ⟨1, [], []⟩, []⟩ : HOState) true
        ⟨0, 0, 0, 0, 0⟩ (Json.num 0) 0 0 =
      CommitResult.done (CommitSignal.err PGError.CRC_MISMATCH)
        (⟨[], ⟨1, [], []⟩, []⟩ : HOState) :=
  (C3_crc_mismatch_commit _ true _ _ 0 0 (Or.inl (by decide))).1

/-- Number of entries of the PG map holding a given pg id. -/
def countKey (m : List (Nat × HS_PG)) (k : Nat) : Nat :=
  (m.filter (fun kv => kv.1 == k)).length

/-- Example fixtures shared by the concrete witnesses below: a PG map
already holding pg 1 (or not), a chunk selector with chunk size 4. -/
def exSuperblk : pg_info_superblk :=
  ⟨1, 0, 0, 0, 8, 0, 0, 0, 0, 0, [], []⟩

def exHsPg : HS_PG := ⟨⟨1, 8, 4, 0, []⟩, 0, 0, 0, 0, 0, exSuperblk⟩

def exStWithPg : HOState := ⟨[(1, exHsPg)], ⟨4, [[21, 22]], []⟩, []⟩

def exStNoPg : HOState := ⟨[], ⟨4, [[21, 22]], []⟩, []⟩

/-- C1: `create_pg` is idempotent by `pg_id`: if a PG with the id already
exists locally, `_create_pg` returns success at once without proposing
anything, and a commit of a (valid, deserializable) CREATE_PG message
whose `pg_id` is already in the PG map is a no-op that resolves the
proposer's promise with success (`ok` on the proposer, nothing on other
replicas), leaving the map — and so its single entry for that id —
untouched. -/
theorem C1_create_pg_idempotent (st : HOState) (pg_info : PGInfo)
    (fresh_uuid : Nat) (isProposer : Bool)
    (header : ReplicationMessageHeader) (payload : Json)
    (group_id fresh_index_uuid : Nat)
    (hmem : (alookup st.pg_map pg_info.id).isSome = true)
    (hvalid : header.corrupted = false)
    (hcrc : crc32_ieee init_crc32 (jsonBytes payload) = header.payload_crc)
    (hdeser : deserialize_pg_info payload = some pg_info)
    (hcount : countKey st.pg_map pg_info.id = 1) :
    create_pg st pg_info fresh_uuid = CreatePgResult.success ∧
    on_create_pg_message_commit st isProposer header payload group_id
        fresh_index_uuid = CommitResult.done (signal isProposer none) st ∧
    signal true none = CommitSignal.ok ∧
    countKey st.pg_map pg_info.id = 1 := by
  refine ⟨?_, ?_, rfl, hcount⟩
  · simp [create_pg, hmem]
  · unfold on_create_pg_message_commit
    simp [hvalid, hcrc, hdeser, hmem]

/-- Witness for C1: pg 1 already present; both the public call and a
second commit of a well-formed CREATE_PG message for pg 1 succeed without
touching the state. -/
theorem C1_create_pg_idempotent_witness :
    create_pg exStWithPg ⟨1, 8, 4, 0, []⟩ 7 = CreatePgResult.success ∧
    on_create_pg_message_commit exStWithPg true
        (create_pg_message_header (serialize_pg_info ⟨1, 8, 4, 0, []⟩))
        (serialize_pg_info ⟨1, 8, 4, 0, []⟩) 0 0 =
      CommitResult.done CommitSignal.ok exStWithPg ∧
    countKey exStWithPg.pg_map 1 = 1 :=
  ⟨(C1_create_pg_idempotent exStWithPg ⟨1, 8, 4, 0, []⟩ 7 true
      (create_pg_message_header (serialize_pg_info ⟨1, 8, 4, 0, []⟩))
      (serialize_pg_info ⟨1, 8, 4, 0, []⟩) 0 0
      (by rfl) (create_pg_message_header_not_corrupted _)
      (create_pg_message_header_payload_crc _) (by decide) rfl).1,
   (C1_create_pg_idempotent exStWithPg ⟨1, 8, 4, 0, []⟩ 7 true
      (create_pg_message_header (serialize_pg_info ⟨1, 8, 4, 0, []⟩))
      (serialize_pg_info ⟨1, 8, 4, 0, []⟩) 0 0
      (by rfl) (create_pg_message_header_not_corrupted _)
      (create_pg_message_header_payload_crc _) (by decide) rfl).2.1,
   rfl⟩

/-- C4 counterexample: the claim quantifies over *every* committed
CREATE_PG message whose deserialized `chunk_size` differs from the local
one; but when the message's `pg_id` is already in the PG map the handler
takes the idempotence branch first and resolves the proposer's promise
with success, not `UNKNOWN`.  Here pg 1 exists locally, the local chunk
size is 4 and the message carries `chunk_size = 2`. -/
theorem C4_counterexample :
    deserialize_pg_info (serialize_pg_info ⟨1, 8, 2, 0, []⟩) =
      some ⟨1, 8, 2, 0, []⟩ ∧
    (⟨1, 8, 2, 0, []⟩ : PGInfo).chunk_size ≠
      exStWithPg.chunk_selector.get_chunk_size ∧
    on_create_pg_message_commit exStWithPg true
        (create_pg_message_header (serialize_pg_info ⟨1, 8, 2, 0, []⟩))
        (serialize_pg_info ⟨1, 8, 2, 0, []⟩) 0 0 =
      CommitResult.done CommitSignal.ok exStWithPg ∧
    CommitSignal.ok ≠ CommitSignal.err PGError.UNKNOWN := by
  refine ⟨by decide, by decide, ?_, by decide⟩
  unfold on_create_pg_message_commit
  rw [create_pg_message_header_not_corrupted,
    ← create_pg_message_header_payload_crc]
  simp only [Bool.false_eq_true, if_false, bne_self_eq_false,
    show deserialize_pg_info (serialize_pg_info ⟨1, 8, 2, 0, []⟩) =
      some ⟨1, 8, 2, 0, []⟩ from by decide]
  decide

/-- C4 (amended): for every committed CREATE_PG message that passes
header and CRC validation, deserializes, and whose `pg_id` is *not yet in
the local PG map*, if the message's `chunk_size` differs from the local
chunk selector's chunk size then the handler records `UNKNOWN` to the
proposer only and returns with the state unchanged: no PG inserted, no
index table created, no chunks reserved. -/
theorem C4_chunk_size_homogeneity (st : HOState) (isProposer : Bool)
    (header : ReplicationMessageHeader) (payload : Json)
    (pg_info : PGInfo) (group_id fresh_index_uuid : Nat)
    (hvalid : header.corrupted = false)
    (hcrc : crc32_ieee init_crc32 (jsonBytes payload) = header.payload_crc)
    (hdeser : deserialize_pg_info payload = some pg_info)
    (hnot : alookup st.pg_map pg_info.id = none)
    (hmism : pg_info.chunk_size ≠ st.chunk_selector.get_chunk_size) :
    on_create_pg_message_commit st isProposer header payload group_id
        fresh_index_uuid =
      CommitResult.done (signal isProposer (some PGError.UNKNOWN)) st ∧
    signal true (some PGError.UNKNOWN) = CommitSignal.err PGError.UNKNOWN ∧
    signal false (some PGError.UNKNOWN) = CommitSignal.no_ctx := by
  refine ⟨?_, rfl, rfl⟩
  unfold on_create_pg_message_commit
  simp [hvalid, hcrc, hdeser, hnot, hmism]

/-- Witness for C4 (amended): pg 1 absent, local chunk size 4, message
chunk size 2; the proposer is told `UNKNOWN` and the state is unchanged. -/
theorem C4_chunk_size_homogeneity_witness :
    on_create_pg_message_commit exStNoPg true
        (create_pg_message_header (serialize_pg_info ⟨1, 8, 2, 0, []⟩))
        (serialize_pg_info ⟨1, 8, 2, 0, []⟩) 0 0 =
      CommitResult.done (CommitSignal.err PGError.UNKNOWN) exStNoPg :=
  (C4_chunk_size_homogeneity exStNoPg true
      (create_pg_message_header (serialize_pg_info ⟨1, 8, 2, 0, []⟩))
      (serialize_pg_info ⟨1, 8, 2, 0, []⟩) ⟨1, 8, 2, 0, []⟩ 0 0
      (create_pg_message_header_not_corrupted _)
      (create_pg_message_header_payload_crc _)
      (by decide) (by rfl) (by decide)).1

/-! ### C8 helper lemmas -/

theorem alookup_setIndexPg (m : List (Nat × PgIndexTable)) (uuid pg : Nat) :
    alookup (setIndexPg m uuid pg) uuid =
      (alookup m uuid).map (fun e => { e with pg_id := pg }) := by
  induction m with
  | nil => rfl
  | cons kv m ih =>
    obtain ⟨k, v⟩ := kv
    by_cases h : k = uuid
    · subst h
      simp only [setIndexPg, if_true]
      simp [alookup]
    · simp only [setIndexPg, if_neg h]
      simp only [alookup, if_neg h]
      exact ih

theorem recover_pg_chunks_get (cs cs' : ChunkSelector) (pg : Nat)
    (chunks : List Nat)
    (h : cs.recover_pg_chunks pg chunks = some cs') :
    cs'.get_pg_chunks pg = some chunks := by
  unfold ChunkSelector.recover_pg_chunks at h
  cases halo : alookup cs.pg_chunks pg with
  | some v => rw [halo] at h; exact absurd h (by simp)
  | none =>
    rw [halo] at h
    cases h
    simp [ChunkSelector.get_pg_chunks, alookup]

theorem try_emplace_lookup (m : List (Nat × HS_PG)) (k : Nat) (v : HS_PG)
    (h : alookup m k = none) :
    alookup (try_emplace m k v) k = some v := by
  unfold try_emplace
  rw [h]
  simp [alookup]

/-- C8: recovery ordering is enforced.  With the repl dev available and
the PG's chunks restorable, if the superblock's `index_table_uuid` is not
in the recovered uuid→index-table map, `on_pg_meta_blk_found` hits the
`RELEASE_ASSERT` (fatal); if the table was recovered first, the handler
attaches that table to the recovered `HS_PG`, records the pg id on the
map entry, restores the PG's chunks in the chunk selector, and adds the
PG to the PG map. -/
theorem C8_recovery_order (st : HOState) (sb : pg_info_superblk)
    (cs' : ChunkSelector)
    (hrec : st.chunk_selector.recover_pg_chunks sb.id sb.chunks = some cs') :
    (alookup st.index_table_pg_map sb.index_table_uuid = none →
      on_pg_meta_blk_found st sb true = RecoveryResult.fatal) ∧
    (∀ entry, alookup st.index_table_pg_map sb.index_table_uuid = some entry →
      on_pg_meta_blk_found st sb true = RecoveryResult.ok
        { st with
          chunk_selector := cs'
          index_table_pg_map :=
            setIndexPg st.index_table_pg_map sb.index_table_uuid sb.id
          pg_map :=
            try_emplace st.pg_map sb.id (HS_PG.fromSuperblk sb entry.table_uuid) } ∧
      alookup (setIndexPg st.index_table_pg_map sb.index_table_uuid sb.id)
          sb.index_table_uuid = some { entry with pg_id := sb.id } ∧
      cs'.get_pg_chunks sb.id = some sb.chunks ∧
      (HS_PG.fromSuperblk sb entry.table_uuid).index_table_uuid =
        entry.table_uuid ∧
      (alookup st.pg_map sb.id = none →
        alookup (try_emplace st.pg_map sb.id
            (HS_PG.fromSuperblk sb entry.table_uuid)) sb.id =
          some (HS_PG.fromSuperblk sb entry.table_uuid))) := by
  constructor
  · intro hnone
    unfold on_pg_meta_blk_found
    simp [hrec, hnone]
  · intro entry hsome
    refine ⟨?_, ?_, recover_pg_chunks_get _ _ _ _ hrec, rfl, ?_⟩
    · unfold on_pg_meta_blk_found
      simp [hrec, hsome]
    · rw [alookup_setIndexPg, hsome]
      rfl
    · intro hnone
      exact try_emplace_lookup _ _ _ hnone

/-- Witness for C8 on concrete states: with index table uuid 6 already
recovered, the PG superblock is recovered into the maps; on a state
without that uuid, the handler is fatal. -/
theorem C8_recovery_order_witness :
    on_pg_meta_blk_found
        (⟨[], ⟨4, [], []⟩, [(6, ⟨0, 6⟩)]⟩ : HOState)
        (⟨1, 0, 1, 0, 8, 6, 0, 0, 0, 0, [], [11]⟩ : pg_info_superblk) true =
      RecoveryResult.ok
        ⟨[(1, HS_PG.fromSuperblk ⟨1, 0, 1, 0, 8, 6, 0, 0, 0, 0, [], [11]⟩ 6)],
         ⟨4, [], [(1, [11])]⟩, [(6, ⟨1, 6⟩)]⟩ ∧
    on_pg_meta_blk_found (⟨[], ⟨4, [], []⟩, []⟩ : HOState)
        (⟨1, 0, 1, 0, 8, 6, 0, 0, 0, 0, [], [11]⟩ : pg_info_superblk) true =
      RecoveryResult.fatal :=
  ⟨((C8_recovery_order (⟨[], ⟨4, [], []⟩, [(6, ⟨0, 6⟩)]⟩ : HOState)
        ⟨1, 0, 1, 0, 8, 6, 0, 0, 0, 0, [], [11]⟩ ⟨4, [], [(1, [11])]⟩
        (by rfl)).2 ⟨0, 6⟩ (by rfl)).1,
   (C8_recovery_order (⟨[], ⟨4, [], []⟩, []⟩ : HOState)
        ⟨1, 0, 1, 0, 8, 6, 0, 0, 0, 0, [], [11]⟩ ⟨4, [], [(1, [11])]⟩
        (by rfl)).1 (by rfl)⟩

/-- C10: for every well-formed `PGInfo` (member set strictly sorted by
id, 128-bit uuids; names pass through the JSON document unchanged), the
round trip `deserialize_pg_info (serialize_pg_info info)` returns a
`PGInfo` equal to `info` — in particular equal on `id`, `size`,
`chunk_size`, `replica_set_uuid` and the member set with each member's
id, name and priority. -/
theorem C10_pg_info_roundtrip (info : PGInfo)
    (hsorted : membersSorted info.members)
    (hu : info.replica_set_uuid < 2 ^ 128)
    (hmu : ∀ m ∈ info.members, m.id < 2 ^ 128) :
    deserialize_pg_info (serialize_pg_info info) = some info :=
  deserialize_serialize_pg_info info hsorted hu hmu

/-- Witness for C10 on a concrete two-member `PGInfo`. -/
theorem C10_pg_info_roundtrip_witness :
    deserialize_pg_info (serialize_pg_info
        ⟨1, 1024, 4, 3, [⟨5, "alpha", 1⟩, ⟨9, "beta", 2⟩]⟩) =
      some ⟨1, 1024, 4, 3, [⟨5, "alpha", 1⟩, ⟨9, "beta", 2⟩]⟩ :=
  C10_pg_info_roundtrip ⟨1, 1024, 4, 3, [⟨5, "alpha", 1⟩, ⟨9, "beta", 2⟩]⟩
    (by simp [membersSorted])
    (by norm_num)
    (by decide)
